import Mathlib

/-!
Verification of the windows-monitor-system event-transport pipeline.

This file gives a shallow embedding, in Lean, of the pure cores of the
agent (wm-client), gateway (wm-api-service) and forwarder (wm-data-service)
components, and proves the spec-level properties about them.

Bytes are modelled as `Nat` values (< 256 where it matters), byte strings as
`List Nat`.  Machine integers are `Nat`/`Int` with explicit `% 2^w` at the
points where the source masks or converts.  Fallible operations return
`Option`; a `none` result models a Rust panic on the corresponding path.
External collaborators (serde, zstd, HTTP, the broker, Elasticsearch) appear
as parameters or as explicit outcome arguments, exactly at the interface the
source code consumes them.
-/

/-- `std::net::IpAddr`: a v4 address carries the `u32` from `Ipv4Addr::to_bits`,
a v6 address the `u128` from `Ipv6Addr::to_bits`. -/
inductive IpAddr where
  | v4 (bits : Nat)
  | v6 (bits : Nat)
  deriving DecidableEq

/-- Well-formedness of the modelled address: the bits fit the Rust integer
type (`u32` for v4, `u128` for v6). -/
def IpAddr.Valid : IpAddr → Prop
  | .v4 bits => bits < 2 ^ 32
  | .v6 bits => bits < 2 ^ 128

instance : DecidablePred IpAddr.Valid := fun ip => by
  cases ip <;> simp [IpAddr.Valid] <;> infer_instance

/-- `wm-api-service/src/utils.rs` (`append_client_ip`): the value
`ip_native_order : u128`, i.e. `u128::from(ipv4.to_bits())` for v4 (the
address in the low 32 bits, upper bits zero) and `ipv6.to_bits()` for v6. -/
def ipBits : IpAddr → Nat
  | .v4 bits => bits
  | .v6 bits => bits

/-- `u8::from(matches!(ip, IpAddr::V4(_)))`: `1` for an IPv4 address,
`0` for IPv6. -/
def ipFlag : IpAddr → Nat
  | .v4 _ => 1
  | .v6 _ => 0

/-- `u128::to_be_bytes` restricted to `len` bytes: big-endian byte list of
`n`, most significant byte first. -/
def beBytes : Nat → Nat → List Nat
  | 0, _ => []
  | len + 1, n => beBytes len (n / 256) ++ [n % 256]

/-- `u128::from_be_bytes`: read a big-endian byte list back into a number. -/
def beToNat (l : List Nat) : Nat :=
  l.foldl (fun acc b => acc * 256 + b) 0

/-- `wm-api-service/src/utils.rs` lines 21-28 (`append_client_ip`): extend the
frame with the 16 big-endian bytes of `ip_native_order` and push one flag
byte (`1` if IPv4 else `0`). -/
def append_client_ip (buffer : List Nat) (ip : IpAddr) : List Nat :=
  buffer ++ beBytes 16 (ipBits ip) ++ [ipFlag ip]

/-- The 17-byte peer trailer appended by the gateway. -/
def peerTrailer (ip : IpAddr) : List Nat :=
  beBytes 16 (ipBits ip) ++ [ipFlag ip]

/-- `wm-data-service/src/forwarder.rs` lines 63-79 (`MessageForwarder::process`,
trailer decode): `data.pop()` yields the flag byte (`none` models the empty
body), the last 16 remaining bytes are read as a big-endian `u128` and
truncated away, and the address is rebuilt (`ip_native_order & 0xFFFFFFFF`
is modelled as `% 2^32`).  A body whose remainder is shorter than 16 bytes
makes the source slice index panic, modelled as `none`. -/
def decodePeer (data : List Nat) : Option (List Nat × IpAddr) :=
  match data.getLast? with
  | none => none
  | some is_ipv4 =>
    let rest := data.dropLast
    if rest.length < 16 then
      none
    else
      let ip_native_order := beToNat (rest.drop (rest.length - 16))
      let record := rest.take (rest.length - 16)
      let ip := if is_ipv4 ≠ 0 then IpAddr.v4 (ip_native_order % 2 ^ 32)
                else IpAddr.v6 ip_native_order
      some (record, ip)

lemma beBytes_length (len n : Nat) : (beBytes len n).length = len := by
  induction len generalizing n with
  | zero => simp [beBytes]
  | succ k ih => simp [beBytes, ih]

lemma beToNat_append_singleton (l : List Nat) (b : Nat) :
    beToNat (l ++ [b]) = beToNat l * 256 + b := by
  simp [beToNat, List.foldl_append]

lemma beToNat_beBytes (len n : Nat) (h : n < 256 ^ len) :
    beToNat (beBytes len n) = n := by
  induction len generalizing n with
  | zero =>
    interval_cases n
    simp [beBytes, beToNat]
  | succ k ih =>
    have hdiv : n / 256 < 256 ^ k := by
      rw [Nat.div_lt_iff_lt_mul (by norm_num)]
      calc n < 256 ^ (k + 1) := h
        _ = 256 ^ k * 256 := by ring
    rw [beBytes, beToNat_append_singleton, ih _ hdiv]
    omega

lemma decodePeer_append (record : List Nat) (ip : IpAddr) (h : ip.Valid) :
    decodePeer (append_client_ip record ip) = some (record, ip) := by
  have hlen : (beBytes 16 (ipBits ip)).length = 16 := beBytes_length 16 _
  have hbits : ipBits ip < 256 ^ 16 := by
    cases ip with
    | v4 bits => calc ipBits (.v4 bits) = bits := rfl
        _ < 2 ^ 32 := h
        _ < 256 ^ 16 := by norm_num
    | v6 bits => calc ipBits (.v6 bits) = bits := rfl
        _ < 2 ^ 128 := h
        _ = 256 ^ 16 := by norm_num
  have hrest : (record ++ beBytes 16 (ipBits ip)).length = record.length + 16 := by
    simp [hlen]
  have hnot : ¬ record.length + 16 < 16 := by omega
  have hsub : record.length + 16 - 16 = record.length := by omega
  have hdrop : (record ++ beBytes 16 (ipBits ip)).drop (record.length + 16 - 16) =
      beBytes 16 (ipBits ip) := by
    rw [hsub, List.drop_left]
  have htake : (record ++ beBytes 16 (ipBits ip)).take (record.length + 16 - 16) = record := by
    rw [hsub, List.take_left]
  unfold append_client_ip decodePeer
  rw [List.getLast?_concat, List.dropLast_concat]
  simp only [hrest, hnot, if_false, hdrop, htake, beToNat_beBytes 16 _ hbits]
  cases ip with
  | v4 bits =>
    have hflag : ipFlag (IpAddr.v4 bits) ≠ 0 := by simp [ipFlag]
    have h32 : bits < 4294967296 := by simpa [IpAddr.Valid] using h
    simp [hflag, ipBits, h32]
  | v6 bits =>
    simp [ipFlag, ipBits]

/-- C5: appending the peer trailer on the gateway side and decoding it on the
forwarder side is an exact round trip: the forwarder recovers the original
record bytes and the original IP address, and the appended trailer is exactly
the 16 big-endian bytes of the `u128` followed by one flag byte, `1` for
IPv4 and `0` for IPv6. -/
theorem append_client_ip_round_trip (record : List Nat) (ip : IpAddr) (h : ip.Valid) :
    decodePeer (append_client_ip record ip) = some (record, ip) ∧
    append_client_ip record ip = record ++ beBytes 16 (ipBits ip) ++ [ipFlag ip] ∧
    (beBytes 16 (ipBits ip)).length = 16 ∧
    ipFlag ip = (match ip with | .v4 _ => 1 | .v6 _ => 0) := by
  refine ⟨decodePeer_append record ip h, rfl, beBytes_length 16 _, ?_⟩
  cases ip <;> rfl

/-- Witness for C5 at the spec's concrete literal: peer `127.0.0.1`
(bits `0x7F000001`) and a two-byte record. -/
theorem append_client_ip_round_trip_witness :
    IpAddr.Valid (.v4 2130706433) ∧
    (decodePeer (append_client_ip [123, 125] (.v4 2130706433)) =
        some ([123, 125], .v4 2130706433) ∧
      append_client_ip [123, 125] (.v4 2130706433) =
        [123, 125] ++ beBytes 16 (ipBits (.v4 2130706433)) ++ [ipFlag (.v4 2130706433)] ∧
      (beBytes 16 (ipBits (IpAddr.v4 2130706433))).length = 16 ∧
      ipFlag (.v4 2130706433) = (match IpAddr.v4 2130706433 with | .v4 _ => 1 | .v6 _ => 0)) :=
  ⟨by decide, append_client_ip_round_trip [123, 125] (.v4 2130706433) (by decide)⟩

/-- Spec-side description of newline splitting: `splitNlAux l` is the first
maximal newline-free segment of `l` paired with the remaining segments
(the last segment is the trailing part after the last `\n`). -/
def splitNlAux : List Nat → List Nat × List (List Nat)
  | [] => ([], [])
  | b :: rest =>
    if b = 10 then ([], (splitNlAux rest).1 :: (splitNlAux rest).2)
    else (b :: (splitNlAux rest).1, (splitNlAux rest).2)

/-- All newline-delimited segments of a byte string (including empty ones and
the trailing segment). -/
def splitNl (l : List Nat) : List (List Nat) :=
  (splitNlAux l).1 :: (splitNlAux l).2

/-- The non-empty newline-delimited records of a request body. -/
def traceRecords (body : List Nat) : List (List Nat) :=
  (splitNl body).filter (fun s => !s.isEmpty)

/-- `wm-api-service/src/routes/trace.rs` lines 46-83 (the spawned publisher
task): read the decompressed stream byte by byte; on `\n`, skip the frame if
the scratch buffer is empty, otherwise append the peer trailer and publish
the buffer to the `events` queue, then clear the buffer; any other byte is
pushed onto the buffer.  `pubOk k` is the outcome of the `k`-th
`basic_publish` call (a failed publish is logged and the frame dropped, the
loop continues).  The returned list is the sequence of message bodies
actually accepted by the broker.  When the stream ends (`read_u8` errors),
the remaining partial buffer is discarded. -/
def publishLoop (pubOk : Nat → Bool) (ip : IpAddr) :
    List Nat → List Nat → Nat → List (List Nat)
  | [], _, _ => []
  | byte :: rest, buffer, k =>
    if byte = 10 then
      if buffer.isEmpty then
        publishLoop pubOk ip rest [] k
      else if pubOk k then
        append_client_ip buffer ip :: publishLoop pubOk ip rest [] (k + 1)
      else
        publishLoop pubOk ip rest [] (k + 1)
    else
      publishLoop pubOk ip rest (buffer ++ [byte]) k

/-- `TraceService::serve` (`wm-api-service/src/routes/trace.rs` lines 32-89)
for a POST request, at the level of the decompressed body: the handler chains
a synthetic trailing `\n` onto the decompressed stream, spawns the publisher
task and immediately returns `200` with a `TraceResponse{}` body (the first
component; the response does not depend on the publish outcome).  If the
lazily-initialized RabbitMQ channel is unavailable the spawned task publishes
nothing ("Events are lost").  The second component is the list of bodies
published to the broker. -/
def serveTrace (rabbitAvailable : Bool) (pubOk : Nat → Bool) (body : List Nat)
    (peer : IpAddr) : Nat × List (List Nat) :=
  (200, if rabbitAvailable then publishLoop pubOk peer (body ++ [10]) [] 0 else [])

lemma append_client_ip_eq_trailer (s : List Nat) (ip : IpAddr) :
    append_client_ip s ip = s ++ peerTrailer ip := by
  simp [append_client_ip, peerTrailer]

lemma count_map_append_right (l : List (List Nat)) (t r : List Nat) :
    (l.map (fun s => s ++ t)).count (r ++ t) = l.count r := by
  induction l with
  | nil => simp
  | cons x xs ih =>
    simp only [List.map_cons, List.count_cons, ih]
    have hbeq : ((x ++ t) == (r ++ t)) = (x == r) := by
      by_cases hrx : x = r
      · subst hrx
        simp
      · have hne : x ++ t ≠ r ++ t := fun hc => hrx (List.append_cancel_right hc)
        simp [hrx, hne]
    rw [hbeq]

lemma publishLoop_all_ok (pubOk : Nat → Bool) (ip : IpAddr) (h : ∀ k, pubOk k = true)
    (input : List Nat) :
    ∀ (buffer : List Nat) (k : Nat),
      publishLoop pubOk ip (input ++ [10]) buffer k =
        (((buffer ++ (splitNlAux input).1) :: (splitNlAux input).2).filter
            (fun s => !s.isEmpty)).map (fun s => append_client_ip s ip) := by
  induction input with
  | nil =>
    intro buffer k
    by_cases hb : buffer.isEmpty
    · have : buffer = [] := by simpa [List.isEmpty_iff] using hb
      subst this
      simp [publishLoop, splitNlAux]
    · simp [publishLoop, splitNlAux, hb, h k]
  | cons b rest ih =>
    intro buffer k
    by_cases hb10 : b = 10
    · subst hb10
      by_cases hb : buffer.isEmpty
      · have hbe : buffer = [] := by simpa [List.isEmpty_iff] using hb
        subst hbe
        have ih' := ih [] k
        simp only [List.nil_append] at ih'
        simp [publishLoop, splitNlAux, ih']
      · have ih' := ih [] (k + 1)
        simp only [List.nil_append] at ih'
        simp [publishLoop, splitNlAux, hb, h k, ih']
    · have ih' := ih (buffer ++ [b]) k
      simp [publishLoop, splitNlAux, hb10, ih', List.append_assoc]

/-- C1 counterexample: a `/trace` POST whose publisher task finds the broker
channel unavailable still returns the success response (`200` with
`TraceResponse{}`), yet the non-empty record of the body is published zero
times, not exactly once.  This refutes "every request that receives a success
response has every non-empty record published exactly once". -/
theorem serveTrace_success_without_publish :
    (serveTrace false (fun _ => true) [120] (.v4 2130706433)).1 = 200 ∧
    (serveTrace false (fun _ => true) [120] (.v4 2130706433)).2 = [] ∧
    traceRecords [120] = [[120]] ∧
    ((serveTrace false (fun _ => true) [120] (.v4 2130706433)).2).count
        ([120] ++ peerTrailer (.v4 2130706433)) = 0 := by
  refine ⟨rfl, rfl, by decide, ?_⟩
  simp [serveTrace]

/-- C1 (amended): when the broker channel is available and every
`basic_publish` call succeeds, a `/trace` POST returns `200` with
`TraceResponse{}` and every non-empty newline-delimited record of the
decompressed body is published to the broker exactly once, with the 17-byte
peer trailer appended; the published list is exactly the record list in
order, and per-record multiplicities agree. -/
theorem serveTrace_publishes_each_record_once (body : List Nat) (ip : IpAddr)
    (pubOk : Nat → Bool) (h : ∀ k, pubOk k = true) :
    serveTrace true pubOk body ip =
      (200, (traceRecords body).map (fun s => s ++ peerTrailer ip)) ∧
    ∀ r : List Nat,
      ((serveTrace true pubOk body ip).2).count (r ++ peerTrailer ip) =
        (traceRecords body).count r := by
  have hmain : serveTrace true pubOk body ip =
      (200, (traceRecords body).map (fun s => s ++ peerTrailer ip)) := by
    have hloop := publishLoop_all_ok pubOk ip h body [] 0
    simp only [List.nil_append] at hloop
    simp only [serveTrace, if_true, hloop, traceRecords, splitNl]
    refine Prod.ext rfl ?_
    simp [append_client_ip_eq_trailer]
  refine ⟨hmain, fun r => ?_⟩
  have h2 : (serveTrace true pubOk body ip).2 =
      (traceRecords body).map (fun s => s ++ peerTrailer ip) := by
    rw [hmain]
  rw [h2, count_map_append_right]

/-- Witness for C1 (amended) on the body `"x\n\ny"` with peer `127.0.0.1`
and all publishes succeeding. -/
theorem serveTrace_publishes_each_record_once_witness :
    (∀ k : Nat, (fun _ : Nat => true) k = true) ∧
    (serveTrace true (fun _ => true) [120, 10, 10, 121] (.v4 2130706433) =
      (200, (traceRecords [120, 10, 10, 121]).map
        (fun s => s ++ peerTrailer (.v4 2130706433))) ∧
    ∀ r : List Nat,
      ((serveTrace true (fun _ => true) [120, 10, 10, 121] (.v4 2130706433)).2).count
          (r ++ peerTrailer (.v4 2130706433)) =
        (traceRecords [120, 10, 10, 121]).count r) :=
  ⟨fun _ => rfl,
    serveTrace_publishes_each_record_once [120, 10, 10, 121] (.v4 2130706433)
      (fun _ => true) (fun _ => rfl)⟩

/-- `MessageForwarder` state (`wm-data-service/src/forwarder.rs` lines 16-20):
the accumulated bulk body `_body` and the single pending acker slot `_acker`
(identified by its delivery tag). -/
structure ForwarderState where
  body : List Nat
  acker : Option Nat
  deriving DecidableEq

/-- A broker acknowledgement emitted by the forwarder.  `ack tag` models
`acker.ack(BasicAckOptions { multiple: true })` and `nack tag` models
`acker.nack(BasicNackOptions { multiple: true, requeue: true })`; with
`multiple: true` either call covers every delivery tag up to and including
`tag`. -/
inductive BrokerAction where
  | ack (tag : Nat)
  | nack (tag : Nat)
  deriving DecidableEq

/-- The UTF-8 bytes of the bulk framing line written before each document:
`{"create":{}}` followed by a newline (`forwarder.rs` line 82). -/
def bulkCreateFraming : List Nat :=
  [123, 34, 99, 114, 101, 97, 116, 101, 34, 58, 123, 125, 125, 10]

/-- `forwarder.rs` lines 103-131: the flush tail of `MessageForwarder::process`.
If `push_to_elastic` is set and the body is non-empty, the body is swapped out
and posted as a `_bulk` request; on transport success the pending acker is
taken and acked (`_ack`), on transport error or when the lazily-initialized
Elasticsearch client is unavailable it is taken and nacked with requeue
(`_nack`).  `bulkSendOk` is the transport-level outcome of `.send()` (any
HTTP response, regardless of status, counts as `Ok`). -/
def forwarderFlush (elasticAvailable bulkSendOk : Bool) (st : ForwarderState)
    (pushToElastic : Bool) : ForwarderState × List BrokerAction :=
  if pushToElastic && !st.body.isEmpty then
    let flushed : ForwarderState := { body := [], acker := st.acker }
    if elasticAvailable then
      if bulkSendOk then
        ({ flushed with acker := none },
          match flushed.acker with | some tag => [.ack tag] | none => [])
      else
        ({ flushed with acker := none },
          match flushed.acker with | some tag => [.nack tag] | none => [])
    else
      ({ flushed with acker := none },
        match flushed.acker with | some tag => [.nack tag] | none => [])
  else
    (st, [])

/-- `MessageForwarder::process` (`forwarder.rs` lines 55-133).  A delivery is
a `(tag, data)` pair; `delivery = none` is the one-second consume timeout.
The acker of an incoming delivery is stored in the pending slot before the
body is examined.  The flag byte is popped, the 16-byte big-endian IP is read
and truncated (a body shorter than 17 bytes panics on the slice index,
modelled as `none`).  `parse` is `serde_json::from_slice::<CapturedEventRecord>`
and `render` is the serialization of `event.to_ecs(ip)`; both are external
interfaces the code consumes.  On parse success the framing line, the
rendered document and a newline are appended to the body and a flush is
triggered once `flush_limit` is reached; on parse error the record is skipped
(`push_to_elastic = false`).  A timeout always requests a flush. -/
def forwarderProcess {α : Type} (flush_limit : Nat) (parse : List Nat → Option α)
    (render : α → IpAddr → List Nat) (elasticAvailable bulkSendOk : Bool)
    (st : ForwarderState) (delivery : Option (Nat × List Nat)) :
    Option (ForwarderState × List BrokerAction) :=
  match delivery with
  | some (tag, data) =>
    match data.getLast? with
    | some is_ipv4 =>
      let rest := data.dropLast
      if rest.length < 16 then
        none
      else
        let ip_native_order := beToNat (rest.drop (rest.length - 16))
        let record := rest.take (rest.length - 16)
        let ip := if is_ipv4 ≠ 0 then IpAddr.v4 (ip_native_order % 2 ^ 32)
                  else IpAddr.v6 ip_native_order
        match parse record with
        | some event =>
          let body := st.body ++ bulkCreateFraming ++ render event ip ++ [10]
          some (forwarderFlush elasticAvailable bulkSendOk
            { body := body, acker := some tag } (decide (flush_limit ≤ body.length)))
        | none =>
          some (forwarderFlush elasticAvailable bulkSendOk
            { body := st.body, acker := some tag } false)
    | none =>
      some (forwarderFlush elasticAvailable bulkSendOk
        { body := st.body, acker := some tag } false)
  | none =>
    some (forwarderFlush elasticAvailable bulkSendOk st true)

/-- A concrete parser instance: only the one-byte record `[65]` is valid
JSON for it; everything else fails to parse. -/
def poisonParse : List Nat → Option Unit :=
  fun record => if record = [65] then some () else none

/-- A concrete renderer instance for the parsed document. -/
def poisonRender : Unit → IpAddr → List Nat :=
  fun _ _ => [65]

/-- A poison delivery: tag `5`, body = the invalid record `[0]` with a valid
17-byte peer trailer for `127.0.0.1`. -/
def poisonDelivery : Nat × List Nat :=
  (5, [0] ++ peerTrailer (.v4 2130706433))

/-- A well-formed delivery: tag `6`, body = the valid record `[65]` with the
same peer trailer. -/
def goodDelivery : Nat × List Nat :=
  (6, [65] ++ peerTrailer (.v4 2130706433))

/-- C2 counterexample: processing the poison delivery (tag `5`, body parses
to no envelope after trailer removal) emits NO broker action — in particular
it is not acked — and leaves tag `5` in the pending acker slot.  After a
valid delivery (tag `6`) and a consume timeout whose bulk flush fails, the
forwarder emits `nack 6` with `multiple: true, requeue: true`, which requeues
every unacked delivery up to tag `6`, including the poison delivery `5`.
This refutes "the Forwarder acknowledges that delivery and skips it; it is
never requeued (never nacked)". -/
theorem forwarderProcess_parse_error_not_acked :
    forwarderProcess 1000 poisonParse poisonRender true true
        { body := [], acker := none } (some poisonDelivery) =
      some ({ body := [], acker := some 5 }, []) ∧
    forwarderProcess 1000 poisonParse poisonRender true true
        { body := [], acker := some 5 } (some goodDelivery) =
      some ({ body := [123, 34, 99, 114, 101, 97, 116, 101, 34, 58, 123, 125, 125, 10, 65, 10],
              acker := some 6 }, []) ∧
    forwarderProcess 1000 poisonParse poisonRender true false
        { body := [123, 34, 99, 114, 101, 97, 116, 101, 34, 58, 123, 125, 125, 10, 65, 10],
          acker := some 6 } none =
      some ({ body := [], acker := none }, [.nack 6]) := by
  refine ⟨by decide, by decide, by decide⟩

/-- C2 (amended): on an envelope parse error the forwarder skips the record
(the bulk body is unchanged) and emits no broker action in that step; the
delivery is NOT acked immediately — its acker replaces the pending slot and
the delivery is acknowledged or negatively acknowledged (with requeue) only
together with the next flush of the batch. -/
theorem forwarderProcess_parse_error_retains_acker {α : Type}
    (flush_limit : Nat) (parse : List Nat → Option α) (render : α → IpAddr → List Nat)
    (elasticAvailable bulkSendOk : Bool) (st : ForwarderState) (tag : Nat)
    (data : List Nat) (f : Nat) (hlast : data.getLast? = some f)
    (hlen : 16 ≤ data.dropLast.length)
    (hparse : parse (data.dropLast.take (data.dropLast.length - 16)) = none) :
    forwarderProcess flush_limit parse render elasticAvailable bulkSendOk st
        (some (tag, data)) =
      some ({ body := st.body, acker := some tag }, []) := by
  simp only [forwarderProcess]
  rw [hlast]
  have hnot : ¬ data.dropLast.length < 16 := by omega
  simp only [hnot, if_false, hparse]
  simp [forwarderFlush]

/-- Witness for C2 (amended) at the poison delivery's body, arriving with
tag `7` on a forwarder whose batch already holds one byte and whose pending
slot holds tag `2`. -/
theorem forwarderProcess_parse_error_retains_acker_witness :
    (poisonDelivery.2.getLast? = some 1 ∧
      16 ≤ poisonDelivery.2.dropLast.length ∧
      poisonParse (poisonDelivery.2.dropLast.take (poisonDelivery.2.dropLast.length - 16)) =
        none) ∧
    forwarderProcess 1000 poisonParse poisonRender false false
        { body := [97], acker := some 2 } (some (7, poisonDelivery.2)) =
      some ({ body := [97], acker := some 7 }, []) :=
  ⟨⟨by decide, by decide, by decide⟩,
    forwarderProcess_parse_error_retains_acker 1000 poisonParse poisonRender false false
      { body := [97], acker := some 2 } 7 poisonDelivery.2 1
      (by decide) (by decide) (by decide)⟩

/-- The observable flag state of `OnceCellNoRetry`
(`wm-common/src/once_cell_no_retry.rs` lines 18-23): the `_initializing`
CAS gate and the `_initialized` flag.  (The stored value itself is not
tracked; callers only observe whether they get `Some` or `None`.) -/
structure CellState where
  initializing : Bool
  initialized : Bool
  deriving DecidableEq

/-- One call of `OnceCellNoRetry::get_or_try_init`
(`once_cell_no_retry.rs` lines 58-94), sequentialized: `fSucceeds` is the
outcome of the caller's initializer future `f()`.  Returns the cell state
after the call completes, the caller's result (`some ()` for `Some(&T)`,
`none` for `None`), and whether this call invoked the initializer.
Fast path: an initialized cell returns immediately.  Otherwise the caller
attempts the `_initializing` compare-exchange `false → true`; on success it
runs `f()` under `_DropGuard` (lines 7-16), which on scope exit stores
`false` back into `_initializing` and wakes the waiters — on both the `Ok`
and the `Err` outcome.  A caller whose compare-exchange fails waits on the
notifier and then re-reads `_initialized`. -/
def getOrTryInit (st : CellState) (fSucceeds : Bool) : CellState × Option Unit × Bool :=
  if st.initialized then
    (st, some (), false)
  else if st.initializing = false then
    if fSucceeds then
      ({ initializing := false, initialized := true }, some (), true)
    else
      ({ initializing := false, initialized := false }, none, true)
  else
    (st, if st.initialized then some () else none, false)

/-- C3 counterexample: after a first call whose initialization attempt fails,
the cell is back in the pristine state `⟨false, false⟩` (the `_DropGuard`
reset `_initializing`), so a second caller's compare-exchange succeeds and the
initializer runs AGAIN (third component `true`); with a succeeding
initializer that caller receives `some`, not `None`.  This refutes "every
subsequent caller receives None immediately and the initializer function is
never invoked again". -/
theorem getOrTryInit_retries_after_failure :
    getOrTryInit { initializing := false, initialized := false } false =
      ({ initializing := false, initialized := false }, none, true) ∧
    getOrTryInit (getOrTryInit { initializing := false, initialized := false } false).1 true =
      ({ initializing := false, initialized := true }, some (), true) := by
  exact ⟨by decide, by decide⟩

/-- C3 (amended): a failed initialization attempt returns `None` to its caller
and resets the cell to the uninitialized state; callers that arrive while an
attempt is in flight wait and receive `None` without invoking the initializer;
but any caller that arrives after the failed attempt completed invokes the
initializer again (the cell retries on later calls — only the concurrent
waiters of one attempt are denied a retry). -/
theorem getOrTryInit_failed_attempt_resets (fSucceeds : Bool) :
    getOrTryInit { initializing := false, initialized := false } false =
      ({ initializing := false, initialized := false }, none, true) ∧
    getOrTryInit { initializing := true, initialized := false } fSucceeds =
      (({ initializing := true, initialized := false } : CellState),
        (none : Option Unit), false) ∧
    (getOrTryInit { initializing := false, initialized := false } fSucceeds).2.2 = true := by
  cases fSucceeds <;> exact ⟨by decide, by decide, by decide⟩

/-- Result of one `Connector::_send_payload_utils` call: the batch buffer's
content on return, the `_errors_count` value on return, and the bytes
appended to the backup store (if any). -/
structure SendResult where
  buffer : List Nat
  errors : Nat
  backedUp : Option (List Nat)
  deriving DecidableEq

/-- `Connector::_send_payload_utils` (`wm-client/src/module/connector.rs`
lines 87-165).  `concurrency_limit` is `event_post.concurrency_limit` (K);
`zstdOk` is the outcome of the zstd compression read; `httpResult` is the
outcome of the `/trace` POST — `none` for a transport error, `some (status,
jsonOk)` for a response with the given status whose body does (`jsonOk`) or
does not parse as `TraceResponse`.  A buffer of length 1 (fresh `[`) returns
untouched.  Otherwise the trailing comma is replaced by `]`; if disconnected
(`errors == K`, `_disconnected`) the network is skipped; a send is a success
exactly when the status is 200 and the body parses; on any failure the
counter becomes `min(errors + 1, K)` and the payload plus `\n` goes to the
backup; in every non-early-return path the buffer is reset to `[`.
`traceSendSuccess` is the `success` value of `connector.rs` lines 104-142:
compression succeeded, the response arrived, its status is 200 and its body
parsed as `TraceResponse`. -/
def traceSendSuccess (zstdOk : Bool) (httpResult : Option (Nat × Bool)) : Bool :=
  zstdOk && (match httpResult with
    | some (status, jsonOk) => status == 200 && jsonOk
    | none => false)

/-- `Connector::_send_payload_utils` itself; see `traceSendSuccess` above for
the shared doc. -/
def _send_payload_utils (concurrency_limit : Nat) (zstdOk : Bool)
    (httpResult : Option (Nat × Bool)) (errors_count : Nat)
    (raw_payload : List Nat) : SendResult :=
  if raw_payload.length = 1 then
    { buffer := raw_payload, errors := errors_count, backedUp := none }
  else
    let payload := raw_payload.dropLast ++ [93]
    if errors_count = concurrency_limit then
      { buffer := [91], errors := errors_count, backedUp := some (payload ++ [10]) }
    else
      if traceSendSuccess zstdOk httpResult then
        { buffer := [91], errors := errors_count, backedUp := none }
      else
        { buffer := [91], errors := min (errors_count + 1) concurrency_limit,
          backedUp := some (payload ++ [10]) }

/-- C4: for every flush of a batch buffer whose content is exactly `[` or an
incomplete JSON array with a trailing comma, the buffer's content after
`_send_payload_utils` returns is exactly `[` (length 1) — on the fresh-buffer
early return, on a successful send, on a compression failure, on a send
failure and on the disconnected/backup path alike. -/
theorem send_payload_resets_buffer (concurrency_limit : Nat) (zstdOk : Bool)
    (httpResult : Option (Nat × Bool)) (errors_count : Nat) (raw_payload : List Nat)
    (h : raw_payload = [91] ∨ ∃ mid, raw_payload = 91 :: mid ++ [44]) :
    (_send_payload_utils concurrency_limit zstdOk httpResult errors_count
        raw_payload).buffer = [91] := by
  rcases h with h | ⟨mid, h⟩
  · subst h
    simp [_send_payload_utils]
  · subst h
    unfold _send_payload_utils
    split
    · rename_i hlen
      simp at hlen
    · split
      · rfl
      · split <;> rfl

/-- Witness for C4 on the buffer `"[0,"` (one accumulated record), a send
failure (HTTP 500), `K = 3`, one prior error. -/
theorem send_payload_resets_buffer_witness :
    ([91, 48, 44] = [91] ∨ ∃ mid, [91, 48, 44] = 91 :: mid ++ [44]) ∧
    (_send_payload_utils 3 true (some (500, true)) 1 [91, 48, 44]).buffer = [91] :=
  ⟨Or.inr ⟨[48], rfl⟩,
    send_payload_resets_buffer 3 true (some (500, true)) 1 [91, 48, 44]
      (Or.inr ⟨[48], rfl⟩)⟩

/-- The `_errors_count` value after a sequence of `_send_payload_utils`
calls, each with its own compression outcome, HTTP outcome and buffer. -/
def errorsAfterSends (concurrency_limit : Nat)
    (sends : List (Bool × Option (Nat × Bool) × List Nat)) (errors_count : Nat) : Nat :=
  sends.foldl
    (fun e s => (_send_payload_utils concurrency_limit s.1 s.2.1 e s.2.2).errors)
    errors_count

lemma send_payload_errors_bounds (concurrency_limit : Nat) (zstdOk : Bool)
    (httpResult : Option (Nat × Bool)) (errors_count : Nat) (raw_payload : List Nat)
    (hK : errors_count ≤ concurrency_limit) :
    errors_count ≤ (_send_payload_utils concurrency_limit zstdOk httpResult errors_count
        raw_payload).errors ∧
    (_send_payload_utils concurrency_limit zstdOk httpResult errors_count
        raw_payload).errors ≤ concurrency_limit := by
  unfold _send_payload_utils
  by_cases h1 : raw_payload.length = 1
  · simp [h1]
    omega
  · by_cases h2 : errors_count = concurrency_limit
    · simp [h1, h2]
    · by_cases h3 : traceSendSuccess zstdOk httpResult = true
      · simp [h1, h2, h3, hK]
      · simp [h1, h2, h3]
        omega

lemma errorsAfterSends_bounds (concurrency_limit : Nat)
    (sends : List (Bool × Option (Nat × Bool) × List Nat)) :
    ∀ errors_count, errors_count ≤ concurrency_limit →
      errors_count ≤ errorsAfterSends concurrency_limit sends errors_count ∧
      errorsAfterSends concurrency_limit sends errors_count ≤ concurrency_limit := by
  induction sends with
  | nil =>
    intro e he
    simp [errorsAfterSends, he]
  | cons s rest ih =>
    intro e he
    have hstep := send_payload_errors_bounds concurrency_limit s.1 s.2.1 e s.2.2 he
    have hrest := ih _ hstep.2
    simp only [errorsAfterSends, List.foldl_cons] at hrest ⊢
    exact ⟨le_trans hstep.1 hrest.1, hrest.2⟩

/-- C8: the Connector's error counter satisfies `0 ≤ errors ≤ K` (Nat, with
`K = event_post.concurrency_limit`): a single flush never decreases it and
keeps it at most `K`; on an actual send failure (not the fresh-buffer early
return, not the disconnected skip, compression failed or the response was a
transport error / non-200 / malformed body) it becomes exactly
`min(errors + 1, K)`; and across any sequence of flushes with no intervening
successful health probe it is monotonically non-decreasing and never exceeds
`K`. -/
theorem errors_count_monotone_bounded (concurrency_limit : Nat) (zstdOk : Bool)
    (httpResult : Option (Nat × Bool)) (errors_count : Nat) (raw_payload : List Nat)
    (sends : List (Bool × Option (Nat × Bool) × List Nat))
    (hK : errors_count ≤ concurrency_limit) :
    (errors_count ≤ (_send_payload_utils concurrency_limit zstdOk httpResult errors_count
        raw_payload).errors ∧
      (_send_payload_utils concurrency_limit zstdOk httpResult errors_count
        raw_payload).errors ≤ concurrency_limit) ∧
    (raw_payload.length ≠ 1 → errors_count ≠ concurrency_limit →
      traceSendSuccess zstdOk httpResult = false →
      (_send_payload_utils concurrency_limit zstdOk httpResult errors_count
          raw_payload).errors = min (errors_count + 1) concurrency_limit) ∧
    (errors_count ≤ errorsAfterSends concurrency_limit sends errors_count ∧
      errorsAfterSends concurrency_limit sends errors_count ≤ concurrency_limit) := by
  refine ⟨send_payload_errors_bounds _ _ _ _ _ hK, ?_, errorsAfterSends_bounds _ _ _ hK⟩
  intro h1 h2 h3
  simp [_send_payload_utils, h1, h2, h3]

/-- Witness for C8: `K = 3`, one prior error, a flush that fails with a 500
response, then a further sequence of one transport-error flush. -/
theorem errors_count_monotone_bounded_witness :
    (1 ≤ 3) ∧
    ((1 ≤ (_send_payload_utils 3 true (some (500, true)) 1 [91, 48, 44]).errors ∧
      (_send_payload_utils 3 true (some (500, true)) 1 [91, 48, 44]).errors ≤ 3) ∧
    ([91, 48, 44].length ≠ 1 → 1 ≠ 3 →
      traceSendSuccess true (some (500, true)) = false →
      (_send_payload_utils 3 true (some (500, true)) 1 [91, 48, 44]).errors = min (1 + 1) 3) ∧
    (1 ≤ errorsAfterSends 3 [(true, none, [91, 48, 44])] 1 ∧
      errorsAfterSends 3 [(true, none, [91, 48, 44])] 1 ≤ 3)) :=
  ⟨by decide,
    errors_count_monotone_bounded 3 true (some (500, true)) 1 [91, 48, 44]
      [(true, none, [91, 48, 44])] (by decide)⟩

/-- One event consumed by `Connector::handle` (`connector.rs` lines 217-257):
`Ok(Some(event))` with the record's serialization outcome (`none` models a
`serialize_to_writer` error), `Ok(None)` for a closed channel, `Err(Elapsed)`
for the 1-second idle timeout. -/
inductive ConnectorEvent where
  | record (serialized : Option (List Nat))
  | closed
  | elapsed
  deriving DecidableEq

/-- Result of one `Connector::handle` call: the content of pool slot `index`
when `handle` returns, the payload moved into a spawned
`_send_payload_utils` task (if one was spawned), and the pool index for the
next call. -/
structure HandleResult where
  buffer : List Nat
  flushed : Option (List Nat)
  index : Nat
  deriving DecidableEq

/-- `Connector::handle` (`connector.rs` lines 217-257).  On a record whose
serialization into the buffer fails, the buffer is cleared and reset to `[`
(lines 231-234) and no flush task is spawned.  On success a trailing comma is
pushed and, past `flush_limit`, the buffer guard is moved into a detached
`_send_payload_utils` task and the pool index advances.  On the idle timeout
the current buffer is always handed to a flush task. -/
def connectorHandle (flush_limit pool_size index : Nat) (payload : List Nat)
    (event : ConnectorEvent) : HandleResult :=
  match event with
  | .record none => { buffer := [91], flushed := none, index := index }
  | .record (some bytes) =>
    let payload2 := payload ++ bytes ++ [44]
    if flush_limit < payload2.length then
      { buffer := payload2, flushed := some payload2, index := (index + 1) % pool_size }
    else
      { buffer := payload2, flushed := none, index := index }
  | .closed => { buffer := payload, flushed := none, index := index }
  | .elapsed => { buffer := payload, flushed := some payload, index := (index + 1) % pool_size }

/-- C10: if serializing a record into the current batch buffer fails in
`Connector::handle`, the whole buffer is reset to `[`: every previously
accumulated record in `payload` is discarded, no flush task is spawned
(`flushed = none`, so nothing is sent and nothing is written to backup), the
failing record itself is dropped, and the pool index does not advance. -/
theorem connectorHandle_serialize_error_discards (flush_limit pool_size index : Nat)
    (payload : List Nat) :
    connectorHandle flush_limit pool_size index payload (.record none) =
      { buffer := [91], flushed := none, index := index } := rfl

/-- The probe loop of `Backup::_switch_to_new_path`
(`wm-client/src/backup.rs` lines 26-47).  `ex k` says whether
`backup-{k}.zst` already exists in the backup directory
(`file::create_new_exclusively` fails exactly on an existing file).
Starting from `index`, the loop tries to create `backup-{index}.zst`; on
success it breaks with that index; on failure it increments the index and
panics (modelled as `none`) when the incremented index reaches 1000.  The
fuel argument only bounds the recursion; `_switch_to_new_path` supplies
enough for the 1000-name probe. -/
def probeLoop (ex : Nat → Bool) : Nat → Nat → Option Nat
  | 0, _ => none
  | fuel + 1, index =>
    if ex index then
      if index + 1 = 1000 then none
      else probeLoop ex fuel (index + 1)
    else
      some index

/-- `Backup::_switch_to_new_path`: probe from index 0. -/
def _switch_to_new_path (ex : Nat → Bool) : Option Nat :=
  probeLoop ex 1000 0

lemma probeLoop_spec (ex : Nat → Bool) :
    ∀ (fuel i : Nat), fuel + i = 1000 →
      (probeLoop ex fuel i = none ↔ ∀ k, i ≤ k → k < 1000 → ex k = true) ∧
      (∀ n, probeLoop ex fuel i = some n →
        i ≤ n ∧ ex n = false ∧ ∀ k, i ≤ k → k < n → ex k = true) := by
  intro fuel
  induction fuel with
  | zero =>
    intro i hi
    constructor
    · simp only [probeLoop, true_iff]
      intro k hk1 hk2
      omega
    · intro n hn
      simp [probeLoop] at hn
  | succ fl ih =>
    intro i hi
    by_cases hex : ex i
    · by_cases hend : i + 1 = 1000
      · constructor
        · simp only [probeLoop, hex, if_true, hend, true_iff]
          intro k hk1 hk2
          have hk : k = i := by omega
          rw [hk]
          exact hex
        · intro n hn
          simp [probeLoop, hex, hend] at hn
      · have hred : probeLoop ex (fl + 1) i = probeLoop ex fl (i + 1) := by
          simp [probeLoop, hex, hend]
        have hrec := ih (i + 1) (by omega)
        constructor
        · rw [hred, hrec.1]
          constructor
          · intro hall k hk1 hk2
            rcases Nat.lt_or_ge i k with hik | hik
            · exact hall k (by omega) hk2
            · have hk : k = i := by omega
              rw [hk]
              exact hex
          · intro hall k hk1 hk2
            exact hall k (by omega) hk2
        · intro n hn
          rw [hred] at hn
          have hsome := hrec.2 n hn
          refine ⟨by omega, hsome.2.1, ?_⟩
          intro k hk1 hk2
          rcases Nat.lt_or_ge k (i + 1) with hki | hki
          · have hk : k = i := by omega
            rw [hk]
            exact hex
          · exact hsome.2.2 k hki hk2
    · have hred : probeLoop ex (fl + 1) i = some i := by
        simp [probeLoop, hex]
      constructor
      · rw [hred]
        constructor
        · intro hn
          exact absurd hn (by simp)
        · intro hall
          have := hall i le_rfl (by omega)
          rw [this] at hex
          exact absurd rfl hex
      · intro n hn
        rw [hred] at hn
        have hni : n = i := by
          exact (Option.some.injEq _ _).mp hn.symm
        rw [hni]
        refine ⟨le_rfl, by simpa using hex, ?_⟩
        intro k hk1 hk2
        omega

/-- C9: the backup index chosen by `_switch_to_new_path` is the minimum
`k ≥ 0` such that `backup-{k}.zst` does not yet exist (it does not exist at
the chosen index, and every smaller index exists), and the probe fails
(models the `BackupExhausted` panic) exactly when all 1000 names
`backup-0.zst` … `backup-999.zst` already exist. -/
theorem switch_to_new_path_min_free_index (ex : Nat → Bool) :
    (_switch_to_new_path ex = none ↔ ∀ k, k < 1000 → ex k = true) ∧
    ∀ n, _switch_to_new_path ex = some n →
      ex n = false ∧ ∀ k, k < n → ex k = true := by
  have h := probeLoop_spec ex 1000 0 (by omega)
  constructor
  · rw [show _switch_to_new_path ex = probeLoop ex 1000 0 from rfl, h.1]
    constructor
    · intro hall k hk
      exact hall k (Nat.zero_le k) hk
    · intro hall k _ hk
      exact hall k hk
  · intro n hn
    have hsome := h.2 n hn
    exact ⟨hsome.2.1, fun k hk => hsome.2.2 k (Nat.zero_le k) hk⟩

/-- Witness for C9 on a directory where exactly `backup-0.zst`, `backup-1.zst`
and `backup-2.zst` exist: the probe chooses index 3, index 3 is free and all
smaller indices are taken. -/
theorem switch_to_new_path_min_free_index_witness :
    _switch_to_new_path (fun k => decide (k < 3)) = some 3 ∧
    ((fun k => decide (k < 3)) 3 = false ∧
      ∀ k, k < 3 → (fun k => decide (k < 3)) k = true) :=
  ⟨by decide,
    (switch_to_new_path_min_free_index (fun k => decide (k < 3))).2 3 (by decide)⟩

/-- `EventData` (`wm-common/src/schema/event.rs` lines 20-76): the tagged
union of kernel event payloads.  `usize`/`u32`/`u16` fields are `Nat`,
`i32`/`i64` fields are `Int`, paths and names are `String`, addresses are
`IpAddr`. -/
inductive EventData where
  | fileCreate (file_object : Nat) (options : Nat) (attributes : Nat)
      (share_access : Nat) (open_path : String)
  | fileOperation (file_object : Nat) (extra_info : Nat) (info_class : Nat)
      (file_path : String)
  | image (image_base : Nat) (image_size : Nat) (process_id : Nat)
      (image_checksum : Nat) (file_name : String)
  | process (unique_process_key : Nat) (process_id : Nat) (parent_id : Nat)
      (session_id : Nat) (exit_status : Int) (directory_table_base : Nat)
      (image_file_name : String) (command_line : String)
  | registry (initial_time : Int) (status : Nat) (index : Nat)
      (key_handle : Nat) (key_name : String)
  | tcpIp (pid : Nat) (size : Nat) (daddr : IpAddr) (saddr : IpAddr)
      (dport : Nat) (sport : Nat)
  | udpIp (pid : Nat) (size : Nat) (daddr : IpAddr) (saddr : IpAddr)
      (dport : Nat) (sport : Nat)
  deriving DecidableEq

/-- The `event.action` value assigned by `CapturedEventRecord::to_ecs`
(`event.rs` lines 195-410), as a function of the event data variant and the
record's opcode; the source's `match self.event.opcode` per variant is
translated clause by clause. -/
def ecsEventAction (data : EventData) (opcode : Nat) : String :=
  match data with
  | .fileCreate .. => "file-create"
  | .fileOperation .. =>
    if opcode = 69 then "file-set-info"
    else if opcode = 70 then "file-delete"
    else if opcode = 71 then "file-rename"
    else if opcode = 74 then "file-query-info"
    else if opcode = 75 then "file-system-control"
    else "file-unknown"
  | .image .. =>
    if opcode = 2 then "image-unload"
    else if opcode = 10 then "image-load"
    else "image-unknown"
  | .process .. =>
    if opcode = 1 then "process-start"
    else if opcode = 2 then "process-end"
    else "process-unknown"
  | .registry .. =>
    if opcode = 10 ∨ opcode = 22 then "registry-create-key"
    else if opcode = 12 ∨ opcode = 23 then "registry-delete-key"
    else if opcode = 14 then "registry-set-value"
    else if opcode = 15 then "registry-delete-value"
    else if opcode = 20 then "registry-set-info"
    else if opcode = 21 then "registry-flush-key"
    else "registry-unknown"
  | .tcpIp .. | .udpIp .. =>
    if opcode = 10 then "udp-send"
    else if opcode = 11 then "udp-receive"
    else if opcode = 12 then "tcp-connect"
    else if opcode = 13 then "tcp-disconnect"
    else if opcode = 15 then "tcp-accept"
    else "tcp-udp-unknown"

/-- The `event.category` value assigned by `to_ecs`, per variant. -/
def ecsEventCategory (data : EventData) : String :=
  match data with
  | .fileCreate .. | .fileOperation .. => "file"
  | .image .. => "library"
  | .process .. => "process"
  | .registry .. => "registry"
  | .tcpIp .. | .udpIp .. => "network"

/-- The `event.type` value assigned by `to_ecs`, as a function of the event
data variant and the opcode.  Note from the source: `FileCreate` and
`FileOperation` set the constant `"creation"` (lines 205, 241), `TcpIp`/
`UdpIp` set the constant `"connection"` (line 394); only `Image`, `Process`
and `Registry` match on the opcode with an `"info"` fallback. -/
def ecsEventType (data : EventData) (opcode : Nat) : String :=
  match data with
  | .fileCreate .. => "creation"
  | .fileOperation .. => "creation"
  | .image .. =>
    if opcode = 2 then "end"
    else if opcode = 10 then "start"
    else "info"
  | .process .. =>
    if opcode = 1 then "start"
    else if opcode = 2 then "end"
    else "info"
  | .registry .. =>
    if opcode = 10 ∨ opcode = 22 then "creation"
    else if opcode = 12 ∨ opcode = 15 ∨ opcode = 23 then "deletion"
    else if opcode = 14 ∨ opcode = 20 ∨ opcode = 21 then "change"
    else "info"
  | .tcpIp .. | .udpIp .. => "connection"

/-- The opcodes each variant's `to_ecs` arm matches explicitly (the variant's
opcode table); `FileCreate` has no opcode match in the source. -/
def opcodeTable (data : EventData) : List Nat :=
  match data with
  | .fileCreate .. => []
  | .fileOperation .. => [69, 70, 71, 74, 75]
  | .image .. => [2, 10]
  | .process .. => [1, 2]
  | .registry .. => [10, 22, 12, 23, 14, 15, 20, 21]
  | .tcpIp .. | .udpIp .. => [10, 11, 12, 13, 15]

/-- Spec-side: the `event.action` the spec's totality clause expects for an
opcode outside the variant's table (the variant's `*-unknown` value;
`FileCreate`, having no table, always maps to `file-create`). -/
def ecsUnknownAction (data : EventData) : String :=
  match data with
  | .fileCreate .. => "file-create"
  | .fileOperation .. => "file-unknown"
  | .image .. => "image-unknown"
  | .process .. => "process-unknown"
  | .registry .. => "registry-unknown"
  | .tcpIp .. | .udpIp .. => "tcp-udp-unknown"

/-- Spec-side: the `event.type` the source actually assigns for an opcode
outside the variant's table: `info` only for `Image`, `Process` and
`Registry`; `creation` for the file variants and `connection` for the
network variants, which set a constant type. -/
def ecsUnknownType (data : EventData) : String :=
  match data with
  | .fileCreate .. | .fileOperation .. => "creation"
  | .image .. | .process .. | .registry .. => "info"
  | .tcpIp .. | .udpIp .. => "connection"

/-- C6 counterexample: a `FileOperation` record with opcode `0` (outside
every reading of the file-operation opcode table) maps to the `*-unknown`
action `file-unknown`, but its `event.type` is `"creation"`, not `"info"`.
This refutes "for every record whose opcode is not in the per-variant opcode
table … the resulting event.type is info". -/
theorem ecs_unknown_opcode_type_counterexample :
    (0 : Nat) ∉ opcodeTable (.fileOperation 0 0 0 "f") ∧
    ecsEventAction (.fileOperation 0 0 0 "f") 0 = "file-unknown" ∧
    ecsEventType (.fileOperation 0 0 0 "f") 0 = "creation" ∧
    ecsEventType (.fileOperation 0 0 0 "f") 0 ≠ "info" := by
  refine ⟨by decide, rfl, rfl, by decide⟩

/-- C6 (amended): the projection is total — `ecsEventAction`, `ecsEventType`
and `ecsEventCategory` are total functions of the variant and opcode, so no
record is dropped — and for every record whose opcode is not in the
variant's opcode table the resulting `event.action` is the variant's
`*-unknown` value for the five variants that have opcode tables (with
`FileCreate`, which has none, always `file-create`), while the resulting
`event.type` is `"info"` only for `Image`, `Process` and `Registry`:
`FileCreate`/`FileOperation` always yield `"creation"` and `TcpIp`/`UdpIp`
always `"connection"`. -/
theorem ecs_unknown_opcode_action_type (data : EventData) (opcode : Nat)
    (h : opcode ∉ opcodeTable data) :
    ecsEventAction data opcode = ecsUnknownAction data ∧
    ecsEventType data opcode = ecsUnknownType data := by
  cases data with
  | fileCreate a b c d e => exact ⟨rfl, rfl⟩
  | fileOperation a b c d =>
    simp only [opcodeTable, List.mem_cons, List.not_mem_nil, not_or, or_false] at h
    simp [ecsEventAction, ecsEventType, ecsUnknownAction, ecsUnknownType, h]
  | image a b c d e =>
    simp only [opcodeTable, List.mem_cons, List.not_mem_nil, not_or, or_false] at h
    simp [ecsEventAction, ecsEventType, ecsUnknownAction, ecsUnknownType, h]
  | process a b c d e f g i =>
    simp only [opcodeTable, List.mem_cons, List.not_mem_nil, not_or, or_false] at h
    simp [ecsEventAction, ecsEventType, ecsUnknownAction, ecsUnknownType, h]
  | registry a b c d e =>
    simp only [opcodeTable, List.mem_cons, List.not_mem_nil, not_or, or_false] at h
    simp [ecsEventAction, ecsEventType, ecsUnknownAction, ecsUnknownType, h]
  | tcpIp a b c d e f =>
    simp only [opcodeTable, List.mem_cons, List.not_mem_nil, not_or, or_false] at h
    simp [ecsEventAction, ecsEventType, ecsUnknownAction, ecsUnknownType, h]
  | udpIp a b c d e f =>
    simp only [opcodeTable, List.mem_cons, List.not_mem_nil, not_or, or_false] at h
    simp [ecsEventAction, ecsEventType, ecsUnknownAction, ecsUnknownType, h]

/-- Witness for C6 (amended) at a `Registry` record with the unknown opcode
`99`. -/
theorem ecs_unknown_opcode_action_type_witness :
    ((99 : Nat) ∉ opcodeTable (.registry 0 0 0 0 "k")) ∧
    (ecsEventAction (.registry 0 0 0 0 "k") 99 = ecsUnknownAction (.registry 0 0 0 0 "k") ∧
      ecsEventType (.registry 0 0 0 0 "k") 99 = ecsUnknownType (.registry 0 0 0 0 "k")) :=
  ⟨by decide, ecs_unknown_opcode_action_type (.registry 0 0 0 0 "k") 99 (by decide)⟩

/-- `_windows_timestamp::<true>` (`wm-common/src/utils.rs` lines 16-27, the
`NSECS = true` instantiation exported as `windows_timestamp`): the returned
`DateTime<Utc>` is `BASE + Duration::seconds(value / 10_000_000) +
Duration::nanoseconds((value % 10_000_000) * 100)` with
`BASE = 1601-01-01T00:00:00Z`.  Rust `i64` division truncates toward zero,
so the result is modelled as the signed nanosecond offset from `BASE`,
using `Int.tdiv`/`Int.tmod`. -/
def windows_timestamp (value : Int) : Int :=
  value.tdiv 10000000 * 1000000000 + value.tmod 10000000 * 100

/-- The proleptic Gregorian civil date (year, month, day) that lies `z` days
after 1970-01-01 — the calendar `chrono` renders `DateTime<Utc>` in.
(Standard era-based conversion; only used to read concrete offsets back as
dates.) -/
def civilFromDays (z : Int) : Int × Nat × Nat :=
  let days := z + 719468
  let era : Int := days.fdiv 146097
  let doe : Nat := (days - era * 146097).toNat
  let yoe : Nat := (doe - doe / 1460 + doe / 36524 - doe / 146096) / 365
  let doy : Nat := doe - (365 * yoe + yoe / 4 - yoe / 100)
  let mp : Nat := (5 * doy + 2) / 153
  let d : Nat := doy - (153 * mp + 2) / 5 + 1
  let m : Nat := if mp < 10 then mp + 3 else mp - 9
  let y : Int := (yoe : Int) + era * 400
  (if m ≤ 2 then y + 1 else y, m, d)

/-- Render a nanosecond offset from 1601-01-01T00:00:00Z as
`((year, month, day), (hour, minute, second), nanosecond)` in UTC;
`134774` is the number of days from 1601-01-01 to 1970-01-01 in the
proleptic Gregorian calendar (validated below by the `1601-01-01` and
`1970-01-01` anchors). -/
def utcOfNanosSince1601 (n : Int) : (Int × Nat × Nat) × (Nat × Nat × Nat) × Nat :=
  let day : Int := n.fdiv 86400000000000
  let rest : Nat := (n - day * 86400000000000).toNat
  let secs : Nat := rest / 1000000000
  let nanos : Nat := rest % 1000000000
  (civilFromDays (day - 134774), (secs / 3600, secs % 3600 / 60, secs % 60), nanos)

/-- The civil UTC reading of `windows_timestamp`. -/
def windows_timestamp_utc (value : Int) : (Int × Nat × Nat) × (Nat × Nat × Nat) × Nat :=
  utcOfNanosSince1601 (windows_timestamp value)

/-- C7 counterexample: tick `132000000000000000` does NOT map to
`2019-05-04T03:33:20Z`.  (`132000000000000000 / 10^7 = 13_200_000_000`
seconds after 1601-01-01, which is Unix time `1_555_526_400`, i.e.
2019-04-17T18:40:00Z.)  This refutes the claim's concrete example. -/
theorem windows_timestamp_example_counterexample :
    windows_timestamp_utc 132000000000000000 ≠ ((2019, 5, 4), (3, 33, 20), 0) := by
  decide

/-- C7 (amended): `windows_timestamp` equals 1601-01-01T00:00:00Z plus
`value div 10_000_000` seconds plus `(value mod 10_000_000) × 100`
nanoseconds — equivalently, an offset of exactly `100 × value` nanoseconds
from the base (both anchors validated) — and in particular maps tick
`132000000000000000` to `2019-04-17T18:40:00Z` (not `2019-05-04T03:33:20Z`
as the spec's example states). -/
theorem windows_timestamp_formula_and_example :
    (∀ value : Int, windows_timestamp value = 100 * value) ∧
    windows_timestamp_utc 0 = ((1601, 1, 1), (0, 0, 0), 0) ∧
    civilFromDays 0 = (1970, 1, 1) ∧
    windows_timestamp_utc 132000000000000000 = ((2019, 4, 17), (18, 40, 0), 0) := by
  refine ⟨?_, by decide, by decide, by decide⟩
  intro value
  have h := Int.tdiv_add_tmod value 10000000
  unfold windows_timestamp
  linarith
